import Mathlib

/-!
Verification of the Wyoming-protocol gateway of chatterbox-tts-api.

The development shallowly embeds the code of `app/core/wyoming_server.py`
(the synthesis handler, the audio response framing, and the server info
construction), the WAV container read/write behaviour of the Python `wave`
module exactly as that file uses it, and — modelled from the spec, because
`app/core/voice_library.py` is not among the provided sources — the voice
discovery routine exercised by `tests/test_voice_discovery.py`.

Bytes are `Nat` values below 256; buffers are `List Nat`; machine-width
fields are written with explicit `% 2^w` arithmetic where the Python
`struct` packing would overflow.
-/


/-! ## Little-endian field encoding (Python `struct` formats `<H` and `<L`) -/

/-- Little-endian 2-byte encoding of a natural number, as `struct.pack`
with format `<H` lays it out (the caller guarantees `n < 2^16`). -/
def le16 (n : Nat) : List Nat := [n % 256, n / 256 % 256]

/-- Little-endian 4-byte encoding of a natural number, as `struct.pack`
with format `<L` lays it out (the caller guarantees `n < 2^32`). -/
def le32 (n : Nat) : List Nat :=
  [n % 256, n / 256 % 256, n / 65536 % 256, n / 16777216 % 256]

/-- Read back a little-endian 2-byte field. -/
def rd16 (a b : Nat) : Nat := a + 256 * b

/-- Read back a little-endian 4-byte field. -/
def rd32 (a b c d : Nat) : Nat := a + 256 * b + 65536 * c + 16777216 * d


/-! ## WAV container encode (wyoming_server.py lines 102-110)

`_generate_speech` writes the raw sample bytes through `wave.open(buffer,
'wb')` with `setnchannels`, `setsampwidth`, `setframerate`, `writeframes`.
CPython `wave` emits a 44-byte PCM header: RIFF tag, riff size
`36 + datalength`, WAVE tag, `fmt ` chunk of declared size 16 holding
format tag 1, channel count, frame rate, byte rate, block align and bits
per sample, then the `data` chunk tag, the actual byte count written, and
the raw bytes. `wave` raises (modelled as `none`) when `setsampwidth` is
given a width outside 1..4, `setnchannels` a zero channel count,
`setframerate` a zero rate, or a `struct.pack` field overflows its
format width. -/

def encodeContainer (s : List Nat) (rate width channels : Nat) : Option (List Nat) :=
  if 1 ≤ width ∧ width ≤ 4 ∧ 1 ≤ channels ∧ 1 ≤ rate ∧
     channels < 65536 ∧ channels * width < 65536 ∧
     rate < 4294967296 ∧ rate * channels * width < 4294967296 ∧
     36 + s.length < 4294967296 then some
    ([82, 73, 70, 70] ++ le32 (36 + s.length) ++
     [87, 65, 86, 69] ++
     [102, 109, 116, 32] ++ le32 16 ++
     le16 1 ++ le16 channels ++ le32 rate ++
     le32 (rate * channels * width) ++ le16 (channels * width) ++
     le16 (width * 8) ++
     [100, 97, 116, 97] ++ le32 s.length ++ s)
  else none


/-! ## WAV container decode (wyoming_server.py lines 114-119)

`_create_audio_response` reads the buffer back through `wave.open(...,
'rb')` and calls `getframerate`, `getsampwidth`, `getnchannels`, and
`readframes(getnframes())`. CPython `Wave_read` checks the RIFF/WAVE
tags, reads the `fmt ` chunk (rejecting a format tag other than PCM, a
zero channel count and a zero sample width, and deriving the width from
the bits field as `(bits + 7) / 8`), skips any `fmt ` bytes beyond the
16 it consumed, finds the `data` chunk, computes the frame count as the
declared data length divided by `channels * width`, and `readframes`
returns that many whole frames — trailing bytes that do not fill a frame
are never returned. Parse failures raise, modelled as `none`. -/

def decodeContainer (b : List Nat) : Option (Nat × Nat × Nat × List Nat) :=
  match b with
  | t0 :: t1 :: t2 :: t3 :: _r0 :: _r1 :: _r2 :: _r3 ::
    v0 :: v1 :: v2 :: v3 ::
    g0 :: g1 :: g2 :: g3 :: f0 :: f1 :: f2 :: f3 ::
    a0 :: a1 :: c0 :: c1 :: r0 :: r1 :: r2 :: r3 ::
    _y0 :: _y1 :: _y2 :: _y3 :: _l0 :: _l1 :: w0 :: w1 :: rest =>
    if t0 = 82 ∧ t1 = 73 ∧ t2 = 70 ∧ t3 = 70 ∧
       v0 = 87 ∧ v1 = 65 ∧ v2 = 86 ∧ v3 = 69 ∧
       g0 = 102 ∧ g1 = 109 ∧ g2 = 116 ∧ g3 = 32 then
      let fmtSize := rd32 f0 f1 f2 f3
      if fmtSize < 16 then none
      else if rd16 a0 a1 ≠ 1 then none
      else
        let channels := rd16 c0 c1
        if channels = 0 then none
        else
          let rate := rd32 r0 r1 r2 r3
          let width := (rd16 w0 w1 + 7) / 8
          if width = 0 then none
          else
            match rest.drop (fmtSize - 16) with
            | k0 :: k1 :: k2 :: k3 :: d0 :: d1 :: d2 :: d3 :: payload =>
              if k0 = 100 ∧ k1 = 97 ∧ k2 = 116 ∧ k3 = 97 then
                let dataLen := rd32 d0 d1 d2 d3
                let frameSize := channels * width
                some (rate, width, channels,
                      payload.take (dataLen / frameSize * frameSize))
              else none
            | _ => none
    else none
  | _ => none


/-! ## Protocol events and the Wyoming handler (wyoming_server.py lines 23-137)

`Event` covers the Wyoming protocol events this gateway can emit.
`AudioStart`, `AudioChunk` and `AudioStop` are the three constructors the
handler builds in `_create_audio_response`; `error` is the protocol error
event type of the Wyoming protocol, included so that claims about error
reporting can be stated — the handler code never constructs it. -/

inductive Event where
  | audioStart (rate width channels : Nat)
  | audioChunk (audio : List Nat) (rate width channels : Nat)
  | audioStop
  | error (message : String)
deriving DecidableEq

def Event.isStart : Event → Bool
  | .audioStart _ _ _ => true
  | _ => false

def Event.isChunk : Event → Bool
  | .audioChunk _ _ _ _ => true
  | _ => false

def Event.isStop : Event → Bool
  | .audioStop => true
  | _ => false

def Event.isError : Event → Bool
  | .error _ => true
  | _ => false

/-- Configuration for the Wyoming server (`WyomingConfig` dataclass,
lines 23-31), restricted to the fields the handler reads. -/
structure WyomingConfig where
  defaultVoice : String := "default"
  sampleRate : Nat := 24000
  sampleWidth : Nat := 2
  channels : Nat := 1

/-- View of the voice library the handler consumes (`get_default_voice`,
`get_voice_path`, `list_voices` of `app/core/voice_library.py`, which is
not among the provided sources). Modelled from the spec: the registry is
an ordered name-to-storage-path mapping plus an optionally configured
default voice name; `lookup` is exact-name match. -/
structure VoiceLib where
  voices : List (String × String)
  defaultVoice : Option String

def VoiceLib.getVoicePath (lib : VoiceLib) (name : String) : Option String :=
  lib.voices.lookup name

/-- Python truthiness of an optional string: `None` and the empty string
are falsy. -/
def strTruthy : Option String → Bool
  | none => false
  | some s => s ≠ ""

/-- Fixed bootstrap sample path. Modelled from the spec:
`Config.VOICE_SAMPLE_PATH` lives in `app/config.py`, which is not among
the provided sources; the spec calls it the fixed bootstrap sample path
and only its identity matters here. -/
def voiceSamplePath : String := "/app/voice-sample.mp3"

/-- `_resolve_voice_path` (lines 69-86): the default branch is taken when
no name is given (or it is empty, by Python truthiness) or the name is
the sentinel; it consults the configured default voice and falls back to
the bootstrap sample path; a given name is looked up in the library and a
miss also falls back to the bootstrap sample path. -/
def resolveVoicePath (lib : VoiceLib) (voiceName : Option String) : String :=
  if strTruthy voiceName = false ∨ voiceName = some "default" then
    match lib.defaultVoice with
    | some dv =>
      if dv ≠ "" then
        match lib.getVoicePath dv with
        | some p => if p ≠ "" then p else voiceSamplePath
        | none => voiceSamplePath
      else voiceSamplePath
    | none => voiceSamplePath
  else
    match voiceName with
    | some n =>
      match lib.getVoicePath n with
      | some p => if p ≠ "" then p else voiceSamplePath
      | none => voiceSamplePath
    | none => voiceSamplePath

/-- `_generate_speech` (lines 88-110): awaits the model's `generate`
(whose outcome is passed in as `gen` — an exception from the model
propagates, there is no try/except) and wraps the returned raw samples in
a WAV container using the configured format. A `wave` failure raises. -/
def generateSpeech (gen : Except String (List Nat)) (cfg : WyomingConfig) :
    Except String (List Nat) := do
  let audio ← gen
  match encodeContainer audio cfg.sampleRate cfg.sampleWidth cfg.channels with
  | some b => pure b
  | none => throw "wave.Error"

/-- `_create_audio_response` (lines 112-137): parses the WAV buffer back
and builds exactly the three-element event list start, chunk, stop, the
single chunk carrying the whole frame buffer. A parse failure raises
(`none`). -/
def createAudioResponse (audioData : List Nat) : Option (List Event) :=
  match decodeContainer audioData with
  | some (rate, width, channels, frames) =>
    some [Event.audioStart rate width channels,
          Event.audioChunk frames rate width channels,
          Event.audioStop]
  | none => none

/-- `_handle_synthesize` (lines 51-67): resolve the voice path, generate
speech (any model exception propagates — the handler has no try/except
and constructs no error event), and frame the audio response. `gen` maps
the request text and resolved voice path to the model call's outcome. -/
def handleSynthesize (lib : VoiceLib) (cfg : WyomingConfig) (text : String)
    (voiceName : Option String) (gen : String → String → Except String (List Nat)) :
    Except String (List Event) := do
  let voicePath := resolveVoicePath lib voiceName
  let wav ← generateSpeech (gen text voicePath) cfg
  match createAudioResponse wav with
  | some events => pure events
  | none => throw "wave.Error"

/-- Events a handler outcome delivers to the client: a propagated
exception delivers none. -/
def emittedEvents : Except String (List Event) → List Event
  | .ok events => events
  | .error _ => []


/-! ## Server info (wyoming_server.py lines 140-201)

`ChatterboxWyomingServer.__init__` builds the `Info` object once, at
construction, by calling `_create_info`, and hands it to the underlying
Wyoming `AsyncServer`; capability-description (Describe) requests are
answered with that stored object. -/

structure TtsVoice where
  name : String
  description : String
  installed : Bool
deriving DecidableEq

structure Attribution where
  name : String
  url : String
deriving DecidableEq

structure TtsProgram where
  name : String
  description : String
  attribution : Attribution
  installed : Bool
  voices : List TtsVoice
deriving DecidableEq

structure Info where
  tts : List TtsProgram
deriving DecidableEq

/-- `list_voices` of the voice library, projected to what `_create_info`
reads: the voice names, in registry order. -/
def VoiceLib.listVoices (lib : VoiceLib) : List String := lib.voices.map (fun v => v.1)

/-- `_create_info` (lines 156-197): a hard-coded "default" voice entry
followed by one entry per library voice, wrapped in the single TTS
program record. -/
def createInfo (lib : VoiceLib) : Info :=
  { tts := [{
      name := "chatterbox-tts",
      description := "Chatterbox TTS - High quality voice cloning",
      attribution := { name := "Resemble AI",
                       url := "https://github.com/resemble-ai/chatterbox" },
      installed := true,
      voices :=
        { name := "default", description := "Default Chatterbox voice",
          installed := true } ::
        lib.listVoices.map (fun n =>
          { name := n, description := "Custom voice: " ++ n, installed := true }) }] }

/-- Server state: the `Info` captured at `__init__` (line 148). -/
structure ChatterboxWyomingServer where
  info : Info

/-- `ChatterboxWyomingServer.__init__` (lines 143-154): `_create_info` is
evaluated once against the registry as it is at construction time. -/
def serverInit (lib : VoiceLib) : ChatterboxWyomingServer :=
  { info := createInfo lib }

/-- Capability-description response: the underlying Wyoming server
answers a Describe request with the stored `Info` object; the registry is
not consulted again. -/
def describeResponse (s : ChatterboxWyomingServer) : Info := s.info

/-- Registry mutation after startup. Modelled from the spec: `add`
appends the new profile record, preserving insertion order. -/
def VoiceLib.addVoice (lib : VoiceLib) (name path : String) : VoiceLib :=
  { lib with voices := lib.voices ++ [(name, path)] }

/-- All voice names advertised by an `Info` object. -/
def infoVoiceNames (i : Info) : List String :=
  (i.tts.map (fun p => p.voices.map (fun v => v.name))).flatten


/-- All voice entries advertised by an `Info` object, across its TTS
programs (this server always constructs exactly one program). -/
def infoVoices (i : Info) : List TtsVoice :=
  (i.tts.map (fun p => p.voices)).flatten


/-- Decidable check for the protocol pattern start, chunk*, end with
exactly one start event, first, and exactly one stop event, last. -/
def streamPatternOk (events : List Event) : Bool :=
  (events.filter Event.isStart).length == 1 &&
  (events.filter Event.isStop).length == 1 &&
  (events.head?.map Event.isStart).getD false &&
  (events.getLast?.map Event.isStop).getD false &&
  ((events.drop 1).dropLast.all Event.isChunk)

/-- Events strictly between the first and the last event of a response. -/
def middleEvents (events : List Event) : List Event :=
  (events.drop 1).dropLast



/-! ## Voice discovery

`VoiceLibrary.discover_and_import_voices` lives in
`app/core/voice_library.py`, which is not among the provided sources;
only its tests (`tests/test_voice_discovery.py`) are. The routine is
therefore modelled from the spec, section 4.1. -/

/-- One registry record, with the fields the discovery tests observe. -/
structure VoiceRecord where
  name : String
  language : String
  discovered : Bool
deriving DecidableEq

/-- Discovery-facing registry state: the ordered list of records. -/
structure VoiceLibraryState where
  voices : List VoiceRecord
deriving DecidableEq

def VoiceLibraryState.names (lib : VoiceLibraryState) : List String :=
  lib.voices.map (fun v => v.name)

/-- One directory entry as discovery sees it: filename stem, extension,
and whether the file passes structural validation (e.g. is non-empty). -/
structure DirFile where
  stem : String
  ext : String
  structValid : Bool
deriving DecidableEq

/-- Recognized audio extensions (spec section 4.1 and
`test_discover_multiple_formats`). -/
def audioExtensions : List String := [".wav", ".mp3", ".flac", ".m4a", ".ogg"]

/-- Modelled from the spec: the scan loop of
`VoiceLibrary.discover_and_import_voices` (file `app/core/voice_library.py`,
not among the provided sources). For each directory entry with a
recognized audio extension: a stem already present in the registry is
omitted from both result lists; otherwise a structurally valid file is
registered with `source=discovered` and reported in `imported`, and a
structurally invalid one is reported in `skipped`. Entries with other
extensions are ignored entirely. Returns the updated registry, the
imported names and the skipped names. -/
def discoverGo (lang : String) (lib : VoiceLibraryState) :
    List DirFile → VoiceLibraryState × List String × List String
  | [] => (lib, [], [])
  | f :: fs =>
    if f.ext ∈ audioExtensions then
      if f.stem ∈ lib.names then discoverGo lang lib fs
      else if f.structValid then
        let r := discoverGo lang { voices := lib.voices ++ [⟨f.stem, lang, true⟩] } fs
        (r.1, f.stem :: r.2.1, r.2.2)
      else
        let r := discoverGo lang lib fs
        (r.1, r.2.1, f.stem :: r.2.2)
    else discoverGo lang lib fs

/-- Modelled from the spec: `discover_and_import_voices(default_language)`
scans the voice directory and returns the imported and skipped name
lists; the registry is updated in place (returned here as first
component). -/
def discoverAndImportVoices (lib : VoiceLibraryState) (dir : List DirFile)
    (lang : String) : VoiceLibraryState × List String × List String :=
  discoverGo lang lib dir


/-! ## Concurrency model of the synthesize path

One Wyoming connection is one asyncio task; `main.py` runs the server
inside a single process, and the Wyoming library drives each client
connection concurrently. The synthesize path of one request is the
straight-line sequence of steps of `_handle_synthesize` (lines 51-67):
resolve the voice path, enter `asyncio.to_thread(model.generate, ...)`
(line 93), leave it, encode the WAV container, and emit the response
events. The code takes no lock and acquires no semaphore anywhere on
this path, so the step alphabet has no acquire/release action; any merge
of two requests' step sequences is a possible execution. -/

inductive HandlerStep where
  | resolveVoice
  | beginGenerate
  | endGenerate
  | encodeWav
  | emitResponse
deriving DecidableEq

/-- The step sequence of one synthesize request, as `_handle_synthesize`
executes it. There is no gate-acquire or gate-release step because the
code contains none. -/
def synthesizeSteps : List HandlerStep :=
  [.resolveVoice, .beginGenerate, .endGenerate, .encodeWav, .emitResponse]

/-- Steps of a trace belonging to one of the two requests (identified by
a Bool). -/
def traceProj (id : Bool) (t : List (Bool × HandlerStep)) : List HandlerStep :=
  (t.filter (fun p => p.1 == id)).map (fun p => p.2)

/-- A trace is an execution of two concurrent synthesize requests when
each request's steps occur in program order. -/
def isInterleaving (t : List (Bool × HandlerStep)) : Bool :=
  traceProj false t == synthesizeSteps && traceProj true t == synthesizeSteps

/-- A request is inside the model's `generate` call after a prefix of the
trace when it has entered `asyncio.to_thread(model.generate, ...)` and
not yet returned. -/
def insideGenerate (id : Bool) (t : List (Bool × HandlerStep)) : Bool :=
  (traceProj id t).count .beginGenerate > (traceProj id t).count .endGenerate

/-- Mutual exclusion of the model: at no instant of the trace are both
requests inside `generate`. -/
def generateMutex (t : List (Bool × HandlerStep)) : Bool :=
  (List.range (t.length + 1)).all (fun k =>
    !(insideGenerate false (t.take k) && insideGenerate true (t.take k)))

/-- A trace in which the second request enters `generate` while the first
is still inside it, as nothing in the handler prevents. -/
def overlappingTrace : List (Bool × HandlerStep) :=
  [(false, .resolveVoice), (true, .resolveVoice),
   (false, .beginGenerate), (true, .beginGenerate),
   (false, .endGenerate), (false, .encodeWav), (false, .emitResponse),
   (true, .endGenerate), (true, .encodeWav), (true, .emitResponse)]


/-! ## Supporting lemmas -/

theorem rd16_le16 (n : Nat) (h : n < 65536) :
    rd16 (n % 256) (n / 256 % 256) = n := by
  unfold rd16; omega

theorem rd32_le32 (n : Nat) (h : n < 4294967296) :
    rd32 (n % 256) (n / 256 % 256) (n / 65536 % 256) (n / 16777216 % 256) = n := by
  unfold rd32; omega


/-- Bounds and the byte-level shape extracted from a successful container
encode. -/
theorem encodeContainer_some (s : List Nat) (rate width channels : Nat) (b : List Nat)
    (h : encodeContainer s rate width channels = some b) :
    1 ≤ width ∧ width ≤ 4 ∧ 1 ≤ channels ∧ 1 ≤ rate ∧
    channels < 65536 ∧ channels * width < 65536 ∧
    rate < 4294967296 ∧ rate * channels * width < 4294967296 ∧
    36 + s.length < 4294967296 ∧
    b = [82, 73, 70, 70] ++ le32 (36 + s.length) ++ [87, 65, 86, 69] ++
        [102, 109, 116, 32] ++ le32 16 ++ le16 1 ++ le16 channels ++
        le32 rate ++ le32 (rate * channels * width) ++
        le16 (channels * width) ++ le16 (width * 8) ++
        [100, 97, 116, 97] ++ le32 s.length ++ s := by
  unfold encodeContainer at h
  split at h
  next hgood => exact ⟨hgood.1, hgood.2.1, hgood.2.2.1, hgood.2.2.2.1, hgood.2.2.2.2.1,
    hgood.2.2.2.2.2.1, hgood.2.2.2.2.2.2.1, hgood.2.2.2.2.2.2.2.1,
    hgood.2.2.2.2.2.2.2.2, (Option.some.inj h).symm⟩
  next => exact absurd h (by simp)

/-- Decoding any successfully encoded container recovers the format triple
and the frame-aligned prefix of the sample bytes: the Python `wave` reader
returns whole frames only, so a trailing partial frame is dropped. -/
theorem decodeContainer_encodeContainer (s : List Nat) (rate width channels : Nat)
    (b : List Nat) (h : encodeContainer s rate width channels = some b) :
    decodeContainer b =
      some (rate, width, channels,
            s.take (s.length / (channels * width) * (channels * width))) := by
  obtain ⟨hw1, hw4, hc1, hr1, hc16, hcw, hr32, hy32, hL, hb⟩ :=
    encodeContainer_some s rate width channels b h
  subst hb
  simp only [le16, le32, List.cons_append, List.nil_append]
  simp only [decodeContainer]
  norm_num
  rw [rd16_le16 channels hc16, rd32_le32 rate hr32,
      rd16_le16 (width * 8) (by omega)]
  have hfmt : rd32 16 0 0 0 = 16 := by norm_num [rd32]
  have hone : rd16 1 0 = 1 := by norm_num [rd16]
  have hw8 : (width * 8 + 7) / 8 = width := by omega
  rw [hfmt, hone, hw8]
  norm_num
  rw [rd32_le32 s.length (by omega)]
  exact ⟨by omega, by omega, rfl⟩


/-- Names already registered survive any discovery run. -/
theorem discoverGo_names_mono (lang : String) (fs : List DirFile)
    (lib : VoiceLibraryState) (x : String) (hx : x ∈ lib.names) :
    x ∈ (discoverGo lang lib fs).1.names := by
  induction fs generalizing lib with
  | nil => exact hx
  | cons f fs ih =>
    by_cases hext : f.ext ∈ audioExtensions
    · by_cases hmem : f.stem ∈ lib.names
      · simpa [discoverGo, hext, hmem] using ih lib hx
      · by_cases hval : f.structValid
        · have hx2 : x ∈ (VoiceLibraryState.mk
              (lib.voices ++ [⟨f.stem, lang, true⟩])).names := by
            simp only [VoiceLibraryState.names, List.map_append, List.mem_append]
            exact Or.inl hx
          simpa [discoverGo, hext, hmem, hval] using ih _ hx2
        · simpa [discoverGo, hext, hmem, hval] using ih lib hx
    · simpa [discoverGo, hext] using ih lib hx

/-- After a discovery run, every structurally valid audio file of the
directory has its stem in the registry. -/
theorem discoverGo_covers (lang : String) (fs : List DirFile)
    (lib : VoiceLibraryState) (f : DirFile) (hf : f ∈ fs)
    (hext : f.ext ∈ audioExtensions) (hval : f.structValid = true) :
    f.stem ∈ (discoverGo lang lib fs).1.names := by
  induction fs generalizing lib with
  | nil => cases hf
  | cons g gs ih =>
    rcases List.mem_cons.mp hf with hfg | hftl
    · subst hfg
      by_cases hmem : f.stem ∈ lib.names
      · simpa [discoverGo, hext, hmem] using
          discoverGo_names_mono lang gs lib f.stem hmem
      · have hx2 : f.stem ∈ (VoiceLibraryState.mk
            (lib.voices ++ [⟨f.stem, lang, true⟩])).names := by
          simp [VoiceLibraryState.names]
        simpa [discoverGo, hext, hmem, hval] using
          discoverGo_names_mono lang gs _ f.stem hx2
    · by_cases hgext : g.ext ∈ audioExtensions
      · by_cases hgmem : g.stem ∈ lib.names
        · simpa [discoverGo, hgext, hgmem] using ih lib hftl
        · by_cases hgval : g.structValid
          · simpa [discoverGo, hgext, hgmem, hgval] using ih _ hftl
          · simpa [discoverGo, hgext, hgmem, hgval] using ih lib hftl
      · simpa [discoverGo, hgext] using ih lib hftl

/-- Discovery imports nothing when every structurally valid audio file of
the directory is already registered. -/
theorem discoverGo_imported_nil (lang : String) (fs : List DirFile)
    (lib : VoiceLibraryState)
    (hcov : ∀ f ∈ fs, f.ext ∈ audioExtensions → f.structValid = true →
      f.stem ∈ lib.names) :
    (discoverGo lang lib fs).2.1 = [] := by
  induction fs generalizing lib with
  | nil => rfl
  | cons f fs ih =>
    have htl : ∀ g ∈ fs, g.ext ∈ audioExtensions → g.structValid = true →
        g.stem ∈ lib.names := fun g hg => hcov g (List.mem_cons_of_mem f hg)
    by_cases hext : f.ext ∈ audioExtensions
    · by_cases hmem : f.stem ∈ lib.names
      · simpa [discoverGo, hext, hmem] using ih lib htl
      · by_cases hval : f.structValid
        · exact absurd (hcov f (List.mem_cons_self f fs) hext hval) hmem
        · simpa [discoverGo, hext, hmem, hval] using ih lib htl
    · simpa [discoverGo, hext] using ih lib htl

/-- A name registered before a discovery run appears in neither the
imported nor the skipped list of that run. -/
theorem discoverGo_registered_not_reported (lang : String) (fs : List DirFile)
    (lib : VoiceLibraryState) (x : String) (hx : x ∈ lib.names) :
    x ∉ (discoverGo lang lib fs).2.1 ∧ x ∉ (discoverGo lang lib fs).2.2 := by
  induction fs generalizing lib with
  | nil => simp [discoverGo]
  | cons f fs ih =>
    by_cases hext : f.ext ∈ audioExtensions
    · by_cases hmem : f.stem ∈ lib.names
      · simpa [discoverGo, hext, hmem] using ih lib hx
      · have hne : x ≠ f.stem := fun he => hmem (he ▸ hx)
        by_cases hval : f.structValid
        · have hx2 : x ∈ (VoiceLibraryState.mk
              (lib.voices ++ [⟨f.stem, lang, true⟩])).names := by
            simp only [VoiceLibraryState.names, List.map_append, List.mem_append]
            exact Or.inl hx
          have := ih _ hx2
          simp only [discoverGo, hext, hmem, hval]
          simp [List.mem_cons, hne, this.1, this.2]
        · have := ih lib hx
          simp only [discoverGo, hext, hmem, hval]
          simp [List.mem_cons, hne, this.1, this.2]
    · simpa [discoverGo, hext] using ih lib hx


/-! ## Claims -/


/-- C1, counterexample: the trace in which both requests are inside the
model's `generate` at once is a legal execution of two concurrent
synthesize requests — `_generate_speech` (lines 88-100) calls
`asyncio.to_thread(model.generate, ...)` without acquiring any
mutual-exclusion gate, so the claimed process-wide serialization does
not hold. -/
theorem generate_overlap_counterexample :
    isInterleaving overlappingTrace = true ∧ generateMutex overlappingTrace = false := by
  decide

/-- C1, amended: synthesize requests are not serialized: there is an
execution of two concurrent requests in which both are executing the
model's `generate` call at the same instant, because the handler
acquires no lock or semaphore around `asyncio.to_thread(model.generate,
...)`. -/
theorem generate_not_serialized :
    ∃ t, isInterleaving t = true ∧ generateMutex t = false :=
  ⟨overlappingTrace, by decide⟩

/-- C2, counterexample: a server constructed over an empty registry keeps
advertising only the hard-coded "default" voice; a voice registered
after startup is absent from the capability-description response even
though it is in the registry, because `_create_info` runs once in
`__init__` (line 148) and the resulting `Info` is cached. -/
theorem describe_cached_counterexample :
    infoVoiceNames (describeResponse (serverInit ⟨[], none⟩)) = ["default"] ∧
    "late" ∈ (VoiceLib.addVoice ⟨[], none⟩ "late" "/voices/late.wav").listVoices ∧
    "late" ∉ infoVoiceNames (describeResponse (serverInit ⟨[], none⟩)) := by
  decide

/-- C2, amended: the capability description is built by enumerating the
registry once, at server construction; it lists exactly the hard-coded
"default" voice followed by the construction-time registry names, and a
voice name absent from the registry at construction never appears in it,
however the registry is mutated later. -/
theorem describe_reflects_construction (lib : VoiceLib) (name : String)
    (h1 : name ∉ lib.listVoices) (h2 : name ≠ "default") :
    infoVoiceNames (describeResponse (serverInit lib)) = "default" :: lib.listVoices ∧
    name ∉ infoVoiceNames (describeResponse (serverInit lib)) := by
  have he : infoVoiceNames (describeResponse (serverInit lib)) =
      "default" :: lib.listVoices := by
    simp only [describeResponse, serverInit, createInfo, infoVoiceNames,
      List.map_cons, List.map_map, List.flatten, List.append_nil, List.map_nil]
    congr 1
    induction lib.listVoices with
    | nil => rfl
    | cons a l ih => simpa using ih
  refine ⟨he, ?_⟩
  rw [he]
  simp only [List.mem_cons, not_or]
  exact ⟨h2, h1⟩

/-- C2, witness for the amended claim at a concrete registry. -/
theorem describe_reflects_construction_witness :
    infoVoiceNames (describeResponse (serverInit ⟨[("alpha", "/v/alpha.wav")], none⟩)) =
      "default" :: (VoiceLib.mk [("alpha", "/v/alpha.wav")] none).listVoices ∧
    "late" ∉ infoVoiceNames (describeResponse (serverInit ⟨[("alpha", "/v/alpha.wav")], none⟩)) :=
  describe_reflects_construction ⟨[("alpha", "/v/alpha.wav")], none⟩ "late"
    (by decide) (by decide)

/-- C3, counterexample: when the model raises, `_handle_synthesize`
(lines 51-67) has no try/except and constructs no protocol error event —
the exception propagates and the client receives no event at all, so the
claimed error event is not emitted. -/
theorem synthesize_failure_counterexample :
    handleSynthesize ⟨[], none⟩ ⟨"default", 24000, 2, 1⟩ "hello" none
      (fun _ _ => .error "model raised") = .error "model raised" ∧
    emittedEvents (handleSynthesize ⟨[], none⟩ ⟨"default", 24000, 2, 1⟩ "hello" none
      (fun _ _ => .error "model raised")) = [] := by
  constructor <;> rfl

/-- C3, amended: when the external synthesis call fails, the handler
emits no events for that request — neither stream-start nor stream-chunk
nor any error event — and the exception propagates unchanged to the
caller (the protocol library); error reporting and connection survival
are left entirely to that external layer. -/
theorem synthesize_failure_propagates (lib : VoiceLib) (cfg : WyomingConfig)
    (text : String) (voiceName : Option String) (msg : String) :
    handleSynthesize lib cfg text voiceName (fun _ _ => .error msg) = .error msg ∧
    emittedEvents (handleSynthesize lib cfg text voiceName
      (fun _ _ => .error msg)) = [] := by
  constructor <;> rfl


/-- C4: every successfully framed audio response — whatever the decoded
frame buffer, including the empty one — matches the pattern start,
chunk*, end: exactly one stream-start event, first, exactly one
stream-end event, last, and only chunk events in between. -/
theorem audio_response_stream_pattern (audioData : List Nat) (events : List Event)
    (h : createAudioResponse audioData = some events) :
    streamPatternOk events = true := by
  unfold createAudioResponse at h
  split at h
  next rate width channels frames heq =>
    cases Option.some.inj h
    rfl
  next => exact absurd h (by simp)

/-- C4, witness: the pattern check holds on the response framed from a
concretely encoded two-byte sample buffer. -/
theorem audio_response_stream_pattern_witness :
    createAudioResponse ((encodeContainer [1, 2] 24000 2 1).getD []) =
      some [Event.audioStart 24000 2 1, Event.audioChunk [1, 2] 24000 2 1,
            Event.audioStop] ∧
    streamPatternOk [Event.audioStart 24000 2 1, Event.audioChunk [1, 2] 24000 2 1,
      Event.audioStop] = true :=
  ⟨by decide, audio_response_stream_pattern ((encodeContainer [1, 2] 24000 2 1).getD [])
    [Event.audioStart 24000 2 1, Event.audioChunk [1, 2] 24000 2 1, Event.audioStop]
    (by decide)⟩

/-- C5, counterexample: for a zero-byte sample buffer the response is not
start immediately followed by end — an empty chunk event sits between
them, because `_create_audio_response` (lines 122-135) unconditionally
builds one `AudioChunk`. -/
theorem empty_audio_chunk_counterexample :
    (encodeContainer [] 24000 2 1).bind createAudioResponse =
      some [Event.audioStart 24000 2 1, Event.audioChunk [] 24000 2 1,
            Event.audioStop] ∧
    middleEvents (((encodeContainer [] 24000 2 1).bind createAudioResponse).getD []) =
      [Event.audioChunk [] 24000 2 1] := by
  decide

/-- C5, amended: for a synthesize request whose synthesized audio
contains zero bytes, the emitted response is the stream-start event, one
stream-chunk event with an empty payload, and the stream-end event, in
that order. -/
theorem empty_audio_response (rate width channels : Nat) (b : List Nat)
    (h : encodeContainer [] rate width channels = some b) :
    createAudioResponse b =
      some [Event.audioStart rate width channels,
            Event.audioChunk [] rate width channels, Event.audioStop] := by
  have hd := decodeContainer_encodeContainer [] rate width channels b h
  simp only [List.length_nil, List.take_nil] at hd
  unfold createAudioResponse
  rw [hd]

/-- C5, witness for the amended claim at the configured format. -/
theorem empty_audio_response_witness :
    createAudioResponse ((encodeContainer [] 24000 2 1).getD []) =
      some [Event.audioStart 24000 2 1, Event.audioChunk [] 24000 2 1,
            Event.audioStop] :=
  empty_audio_response 24000 2 1 ((encodeContainer [] 24000 2 1).getD []) (by decide)

/-- C6: with no default voice configured, resolving a voice name that is
absent from the registry yields the same path as resolving no voice name
at all — the fixed bootstrap sample path — and in particular resolution
is total: no NotFound error can reach the client. -/
theorem resolve_missing_voice_falls_back (lib : VoiceLib) (name : String)
    (hdef : lib.defaultVoice = none) (hmiss : lib.getVoicePath name = none) :
    resolveVoicePath lib (some name) = resolveVoicePath lib none ∧
    resolveVoicePath lib (some name) = voiceSamplePath := by
  have hnone : resolveVoicePath lib none = voiceSamplePath := by
    unfold resolveVoicePath
    rw [hdef]
    split <;> rfl
  have hsome : resolveVoicePath lib (some name) = voiceSamplePath := by
    unfold resolveVoicePath
    split
    · rw [hdef]
    · simp [hmiss]
  exact ⟨hsome.trans hnone.symm, hsome⟩

/-- C6, witness: a registry holding one voice and no configured default,
queried for a name it does not contain. -/
theorem resolve_missing_voice_falls_back_witness :
    resolveVoicePath ⟨[("alpha", "/v/alpha.wav")], none⟩ (some "ghost") =
      resolveVoicePath ⟨[("alpha", "/v/alpha.wav")], none⟩ none ∧
    resolveVoicePath ⟨[("alpha", "/v/alpha.wav")], none⟩ (some "ghost") =
      voiceSamplePath :=
  resolve_missing_voice_falls_back ⟨[("alpha", "/v/alpha.wav")], none⟩ "ghost"
    rfl (by decide)

/-- C7, counterexample: a three-byte sample buffer at sample width 2,
one channel, does not round-trip — the reader returns only the whole
frames, dropping the trailing byte. -/
theorem wav_roundtrip_counterexample :
    (encodeContainer [7, 8, 9] 24000 2 1).bind decodeContainer =
      some (24000, 2, 1, [7, 8]) ∧
    (encodeContainer [7, 8, 9] 24000 2 1).bind decodeContainer ≠
      some (24000, 2, 1, [7, 8, 9]) := by
  decide

/-- C7, amended: for every non-empty sample buffer whose length is a
whole number of frames (a multiple of `channels * width`) and valid
format triple, decoding the container produced by encoding yields back
exactly the format triple and the buffer. -/
theorem wav_roundtrip_aligned (s : List Nat) (rate width channels : Nat)
    (b : List Nat) (_hs : s ≠ [])
    (halign : channels * width ∣ s.length)
    (h : encodeContainer s rate width channels = some b) :
    decodeContainer b = some (rate, width, channels, s) := by
  have hd := decodeContainer_encodeContainer s rate width channels b h
  rw [Nat.div_mul_cancel halign, List.take_length] at hd
  exact hd

/-- C7, witness: a one-frame buffer at the configured format
round-trips. -/
theorem wav_roundtrip_aligned_witness :
    decodeContainer ((encodeContainer [1, 2] 24000 2 1).getD []) =
      some (24000, 2, 1, [1, 2]) :=
  wav_roundtrip_aligned [1, 2] 24000 2 1 ((encodeContainer [1, 2] 24000 2 1).getD [])
    (by decide) (by decide) (by decide)

/-- C8: running discovery twice with no filesystem change in between
imports nothing on the second run, and a file whose derived name is
already in the registry when the second run starts appears in neither
the imported nor the skipped list of that second run. -/
theorem discover_idempotent_and_dedup (lib : VoiceLibraryState) (dir : List DirFile)
    (lang : String) :
    (discoverAndImportVoices (discoverAndImportVoices lib dir lang).1 dir lang).2.1 = [] ∧
    ∀ f ∈ dir, f.stem ∈ (discoverAndImportVoices lib dir lang).1.names →
      f.stem ∉ (discoverAndImportVoices (discoverAndImportVoices lib dir lang).1 dir lang).2.1 ∧
      f.stem ∉ (discoverAndImportVoices (discoverAndImportVoices lib dir lang).1 dir lang).2.2 := by
  constructor
  · exact discoverGo_imported_nil lang dir _
      (fun f hf hext hval => discoverGo_covers lang dir lib f hf hext hval)
  · intro f _ hmem
    exact discoverGo_registered_not_reported lang dir _ f.stem hmem

/-- C8, witness: one audio file, imported by the first run and then in
neither result list of the second run. -/
theorem discover_idempotent_and_dedup_witness :
    (discoverAndImportVoices
      (discoverAndImportVoices ⟨[]⟩ [⟨"existing", ".wav", true⟩] "en").1
      [⟨"existing", ".wav", true⟩] "en").2.1 = [] ∧
    "existing" ∉ (discoverAndImportVoices
      (discoverAndImportVoices ⟨[]⟩ [⟨"existing", ".wav", true⟩] "en").1
      [⟨"existing", ".wav", true⟩] "en").2.2 :=
  ⟨(discover_idempotent_and_dedup ⟨[]⟩ [⟨"existing", ".wav", true⟩] "en").1,
   ((discover_idempotent_and_dedup ⟨[]⟩ [⟨"existing", ".wav", true⟩] "en").2
      ⟨"existing", ".wav", true⟩ (by decide) (by decide)).2⟩

/-- C9: every successfully framed response is exactly the three events
start, chunk, end, and the single chunk carries the entire decoded frame
buffer — the audio is never split into bounded-size chunks, whatever the
buffer. -/
theorem response_is_single_whole_chunk (audioData : List Nat)
    (rate width channels : Nat) (frames : List Nat)
    (h : decodeContainer audioData = some (rate, width, channels, frames)) :
    createAudioResponse audioData =
      some [Event.audioStart rate width channels,
            Event.audioChunk frames rate width channels, Event.audioStop] := by
  unfold createAudioResponse
  rw [h]

/-- C9, witness: the response framed from a concretely encoded buffer is
the three-event list whose single chunk is the whole buffer. -/
theorem response_is_single_whole_chunk_witness :
    createAudioResponse ((encodeContainer [1, 2, 3, 4] 24000 2 1).getD []) =
      some [Event.audioStart 24000 2 1, Event.audioChunk [1, 2, 3, 4] 24000 2 1,
            Event.audioStop] :=
  response_is_single_whole_chunk ((encodeContainer [1, 2, 3, 4] 24000 2 1).getD [])
    24000 2 1 [1, 2, 3, 4] (by decide)


/-- C10: the advertised voice list always begins with the hard-coded
"default" entry, marked installed, followed by exactly one entry per
registry voice, so its length is the registry size plus one. -/
theorem info_starts_with_default (lib : VoiceLib) :
    infoVoices (createInfo lib) =
      ⟨"default", "Default Chatterbox voice", true⟩ ::
        lib.listVoices.map (fun n => ⟨n, "Custom voice: " ++ n, true⟩) ∧
    (infoVoices (createInfo lib)).length = lib.listVoices.length + 1 := by
  constructor
  · simp [infoVoices, createInfo]
  · simp [infoVoices, createInfo]
